import Mathlib

/-!
Verification of the Prefect Terraform provider's workspace data source
(`internal/provider/datasources/workspace.go`) against its specification.

The Go code is shallowly embedded: the Terraform framework's nullable string
attribute becomes `TFString`, `google/uuid`'s `Parse`/`String` are translated
byte for byte, `time.Time` with `Format(time.RFC3339)` becomes `Time` with
`Time.formatRFC3339`, the `api.PrefectClient` facade and its `WorkspacesClient`
sub-client become structures of result-valued functions, and the `Read` and
`Configure` methods become pure functions returning the recorded diagnostics,
the remote calls issued, and the state written (if any).
-/

deriving instance DecidableEq for Except

/-- The Terraform framework's `types.String`: a string attribute that is either
explicitly null or holds a value.  (An unknown state also exists in the
framework but never reaches a data source `Read`, which receives only known
configuration values.) -/
inductive TFString where
  | null
  | value (s : String)
deriving DecidableEq, Repr

/-- `types.String.IsNull()`. -/
def TFString.IsNull : TFString → Bool
  | .null => true
  | .value _ => false

/-- `types.String.ValueString()`: the held value, or `""` when null. -/
def TFString.ValueString : TFString → String
  | .null => ""
  | .value s => s

/-- `types.StringValue`. -/
def StringValue (s : String) : TFString := TFString.value s

/-- `types.StringNull`. -/
def StringNull : TFString := TFString.null

/-- `types.StringPointerValue`: a nil pointer becomes null, a non-nil pointer
becomes its pointed-to value. -/
def StringPointerValue : Option String → TFString
  | none => TFString.null
  | some s => TFString.value s

/-- A `google/uuid` UUID: 16 bytes. -/
structure UUID where
  bytes : List Nat
deriving DecidableEq, Repr

/-- `uuid.Nil`, the zero UUID. -/
def UUID.Nil : UUID := ⟨List.replicate 16 0⟩

/-- Value of a hex digit character, as in `google/uuid`'s `xvalues` table. -/
def xvalue (c : Char) : Option Nat :=
  if '0' ≤ c ∧ c ≤ '9' then some (c.toNat - '0'.toNat)
  else if 'a' ≤ c ∧ c ≤ 'f' then some (c.toNat - 'a'.toNat + 10)
  else if 'A' ≤ c ∧ c ≤ 'F' then some (c.toNat - 'A'.toNat + 10)
  else none

/-- `google/uuid`'s `xtob`: two hex characters to one byte. -/
def xtob (a b : Char) : Option Nat :=
  match xvalue a, xvalue b with
  | some x, some y => some (x * 16 + y)
  | _, _ => none

/-- Positions of the byte pairs in the canonical 36-character form, as in
`google/uuid`'s `Parse`. -/
def hexOffsets : List Nat := [0, 2, 4, 6, 9, 11, 14, 16, 19, 21, 24, 26, 28, 30, 32, 34]

/-- Parse the canonical `xxxxxxxx-xxxx-xxxx-xxxx-xxxxxxxxxxxx` character form
(positions 0..35 of `cs`; the length checks in `uuid.Parse` guarantee the
defaults of `getD` are never reached). -/
def parseCanonicalChars (cs : List Char) : Except String UUID :=
  if cs.getD 8 ' ' = '-' ∧ cs.getD 13 ' ' = '-' ∧ cs.getD 18 ' ' = '-' ∧ cs.getD 23 ' ' = '-' then
    match hexOffsets.mapM (fun x => xtob (cs.getD x ' ') (cs.getD (x + 1) ' ')) with
    | some bs => Except.ok ⟨bs⟩
    | none => Except.error "invalid UUID format"
  else Except.error "invalid UUID format"

/-- Parse the 32-character form without hyphens. -/
def parseHex32 (cs : List Char) : Except String UUID :=
  match (List.range 16).mapM (fun i => xtob (cs.getD (2 * i) ' ') (cs.getD (2 * i + 1) ' ')) with
  | some bs => Except.ok ⟨bs⟩
  | none => Except.error "invalid UUID format"

namespace uuid

/-- `uuid.Parse`: accepts the canonical 36-character form, the
`urn:uuid:`-prefixed form (case-insensitive prefix), the braced form (which,
as in the Go source, only strips the first character and parses the next 36),
and the 32-character hex form; any other length is rejected. -/
def Parse (s : String) : Except String UUID :=
  let cs := s.data
  if cs.length = 36 then parseCanonicalChars cs
  else if cs.length = 45 then
    if (cs.take 9).map Char.toLower = "urn:uuid:".data then
      parseCanonicalChars (cs.drop 9)
    else Except.error "invalid urn prefix"
  else if cs.length = 38 then parseCanonicalChars (cs.drop 1)
  else if cs.length = 32 then parseHex32 cs
  else Except.error ("invalid UUID length: " ++ toString cs.length)

end uuid

/-- Lowercase hex digit table, as `encoding/hex`'s `hextable` used by
`UUID.String` (indices above 15 never occur for byte values). -/
def hexDigit (n : Nat) : Char :=
  match n with
  | 0 => '0' | 1 => '1' | 2 => '2' | 3 => '3' | 4 => '4' | 5 => '5' | 6 => '6' | 7 => '7'
  | 8 => '8' | 9 => '9' | 10 => 'a' | 11 => 'b' | 12 => 'c' | 13 => 'd' | 14 => 'e' | 15 => 'f'
  | _ => '0'

/-- Render a byte list as lowercase hex characters, two per byte. -/
def bytesToHexChars : List Nat → List Char
  | [] => []
  | b :: bs => hexDigit (b / 16) :: hexDigit (b % 16) :: bytesToHexChars bs

/-- The characters of `UUID.String`: the canonical lowercase hyphenated
rendering 8-4-4-4-12. -/
def UUID.chars (u : UUID) : List Char :=
  bytesToHexChars (u.bytes.take 4) ++ '-' ::
  bytesToHexChars ((u.bytes.drop 4).take 2) ++ '-' ::
  bytesToHexChars ((u.bytes.drop 6).take 2) ++ '-' ::
  bytesToHexChars ((u.bytes.drop 8).take 2) ++ '-' ::
  bytesToHexChars (u.bytes.drop 10)

/-- `UUID.String()`: canonical lowercase hyphenated rendering. -/
def UUID.String (u : UUID) : String := ⟨u.chars⟩

/-- A `time.Time`, reduced to the components RFC 3339 prints: calendar date,
wall-clock time, and the zone offset from UTC in minutes. -/
structure Time where
  year : Nat
  month : Nat
  day : Nat
  hour : Nat
  minute : Nat
  second : Nat
  offsetMinutes : Int
deriving DecidableEq, Repr

/-- Zero-pad a natural number to a width. -/
def padNat (width n : Nat) : String :=
  let s := toString n
  String.mk (List.replicate (width - s.length) '0') ++ s

/-- `time.Time.Format(time.RFC3339)`: `YYYY-MM-DDTHH:MM:SS` followed by `Z`
for a zero offset or a signed `±HH:MM` offset. -/
def Time.formatRFC3339 (t : Time) : String :=
  padNat 4 t.year ++ "-" ++ padNat 2 t.month ++ "-" ++ padNat 2 t.day ++ "T" ++
  padNat 2 t.hour ++ ":" ++ padNat 2 t.minute ++ ":" ++ padNat 2 t.second ++
  (if t.offsetMinutes = 0 then "Z"
   else (if t.offsetMinutes < 0 then "-" else "+") ++
     padNat 2 (t.offsetMinutes.natAbs / 60) ++ ":" ++ padNat 2 (t.offsetMinutes.natAbs % 60))

/-- The `api.Workspace` DTO, with exactly the fields the data source reads:
`ID uuid.UUID`, `Created *time.Time`, `Updated *time.Time`, `Name string`,
`Handle string`, `Description *string` (pointers become `Option`). -/
structure Workspace where
  ID : UUID
  Created : Option Time
  Updated : Option Time
  Name : String
  Handle : String
  Description : Option String
deriving DecidableEq, Repr

/-- The `api.WorkspacesClient` sub-client, restricted to the one verb the data
source calls: `Get(ctx, workspaceID) (*Workspace, error)`.  The context
argument carries no information in this embedding. -/
structure WorkspacesClient where
  Get : UUID → Except String Workspace

/-- The `api.PrefectClient` facade, restricted to the accessor the workspace
data source uses: `Workspaces(accountID) (WorkspacesClient, error)`. -/
structure PrefectClient where
  Workspaces : UUID → Except String WorkspacesClient

/-- A diagnostic record: `AddError`, `AddAttributeError` (rooted at an
attribute path), or `AddWarning`. -/
inductive Diagnostic where
  | error (summary detail : String)
  | attributeError (path summary detail : String)
  | warning (summary detail : String)
deriving DecidableEq, Repr

/-- Whether a diagnostic has error severity. -/
def Diagnostic.isError : Diagnostic → Bool
  | .error _ _ => true
  | .attributeError _ _ _ => true
  | .warning _ _ => false

/-- Whether a diagnostic is an attribute-level error rooted at the given path. -/
def Diagnostic.isAttributeErrorAt : Diagnostic → String → Bool
  | .attributeError q _ _, p => q = p
  | _, _ => false

/-- `WorkspaceDataSourceModel`: the typed Terraform model, one nullable string
attribute per schema attribute. -/
structure WorkspaceDataSourceModel where
  ID : TFString
  Created : TFString
  Updated : TFString
  AccountID : TFString
  Name : TFString
  Handle : TFString
  Description : TFString
deriving DecidableEq, Repr

/-- Outcome of one `Read` call: the diagnostics recorded, the account IDs
passed to `PrefectClient.Workspaces`, the workspace IDs passed to
`WorkspacesClient.Get` (in call order), and the model written to the response
state — `none` when `Read` returned before `resp.State.Set`. -/
structure ReadResult where
  diagnostics : List Diagnostic
  workspacesCalls : List UUID
  getCalls : List UUID
  newState : Option WorkspaceDataSourceModel
deriving DecidableEq, Repr

namespace WorkspaceDataSource

/-- The account-scope resolution of `Read` (workspace.go lines 125-138):
`uuid.Nil` when the `account_id` attribute is null or empty, otherwise
`uuid.Parse` of its value. -/
def resolveAccountID (model : WorkspaceDataSourceModel) : Except String UUID :=
  if model.AccountID.IsNull = false ∧ model.AccountID.ValueString ≠ "" then
    uuid.Parse model.AccountID.ValueString
  else Except.ok UUID.Nil

/-- The state-mapping block of `Read` (workspace.go lines 171-187): overwrite
the model's computed fields from the remote entity, leaving `account_id`
untouched. -/
def updateModelFromWorkspace (model : WorkspaceDataSourceModel) (workspace : Workspace) :
    WorkspaceDataSourceModel :=
  { model with
    ID := StringValue workspace.ID.String
    Created := match workspace.Created with
      | none => StringNull
      | some t => StringValue t.formatRFC3339
    Updated := match workspace.Updated with
      | none => StringNull
      | some t => StringValue t.formatRFC3339
    Name := StringValue workspace.Name
    Handle := StringValue workspace.Handle
    Description := StringPointerValue workspace.Description }

/-- `WorkspaceDataSource.Read` (workspace.go lines 107-193), given the model
decoded from the configuration and the facade injected by `Configure`.  Each
early `return` of the Go code becomes a branch recording exactly the
diagnostics added so far, the remote calls issued so far, and no state write. -/
def Read (model : WorkspaceDataSourceModel) (client : PrefectClient) : ReadResult :=
  if model.ID.IsNull = false ∧ model.Name.IsNull = false then
    { diagnostics := [Diagnostic.error "Conflicting workspace lookup keys"
        "Workspaces can be identified by their unique name or ID, but not both."],
      workspacesCalls := [], getCalls := [], newState := none }
  else
    match resolveAccountID model with
    | Except.error e =>
      { diagnostics := [Diagnostic.attributeError "account_id" "Error parsing Account ID"
          ("Could not parse account ID to UUID, unexpected error: " ++ e)],
        workspacesCalls := [], getCalls := [], newState := none }
    | Except.ok accountID =>
      match client.Workspaces accountID with
      | Except.error e =>
        { diagnostics := [Diagnostic.error "Error creating workspace client"
            ("Could not create workspace client, unexpected error: " ++ e ++
             ". This is a bug in the provider, please report this to the maintainers.")],
          workspacesCalls := [accountID], getCalls := [], newState := none }
      | Except.ok wsClient =>
        match uuid.Parse model.ID.ValueString with
        | Except.error e =>
          { diagnostics := [Diagnostic.attributeError "id" "Error parsing Workspace ID"
              ("Could not parse workspace ID to UUID, unexpected error: " ++ e)],
            workspacesCalls := [accountID], getCalls := [], newState := none }
        | Except.ok workspaceID =>
          match wsClient.Get workspaceID with
          | Except.error e =>
            { diagnostics := [Diagnostic.error "Error refreshing workspace state"
                ("Could not read workspace, unexpected error: " ++ e)],
              workspacesCalls := [accountID], getCalls := [workspaceID], newState := none }
          | Except.ok workspace =>
            { diagnostics := [], workspacesCalls := [accountID], getCalls := [workspaceID],
              newState := some (updateModelFromWorkspace model workspace) }

/-- The provider data handed to `Configure`: Go's `nil`, a value of the
expected `api.PrefectClient` facade type, or a value of some other dynamic
type (identified by its printed type name `%T`). -/
inductive ProviderData where
  | nil
  | prefectClient (c : PrefectClient)
  | other (typeName : String)

/-- `WorkspaceDataSource.Configure` (workspace.go lines 49-65), as a total
function (no panic) from the currently stored client and the provider data to
the recorded diagnostics and the stored client afterwards. -/
def Configure (stored : Option PrefectClient) (data : ProviderData) :
    List Diagnostic × Option PrefectClient :=
  match data with
  | ProviderData.nil => ([], stored)
  | ProviderData.other t =>
    ([Diagnostic.error "Unexpected Data Source Configure Type"
        ("Expected api.PrefectClient, got: " ++ t ++
         ". Please report this issue to the provider developers.")], stored)
  | ProviderData.prefectClient c => ([], some c)

end WorkspaceDataSource

/-! ### Concrete fixtures -/

/-- The UUID `11111111-1111-1111-1111-111111111111`. -/
def u1111 : UUID := ⟨List.replicate 16 17⟩

/-- The entity of the specification's example scenario. -/
def exWorkspace : Workspace :=
  { ID := u1111, Created := some ⟨2023, 1, 1, 0, 0, 0, 0⟩, Updated := none,
    Name := "prod", Handle := "prod-handle", Description := none }

/-- A sub-client whose `Get` always returns the example entity. -/
def exWC : WorkspacesClient := ⟨fun _ => Except.ok exWorkspace⟩

/-- A facade whose `Workspaces` always succeeds with `exWC`. -/
def exClient : PrefectClient := ⟨fun _ => Except.ok exWC⟩

/-- A configuration model looking the example workspace up by ID, with every
other attribute null. -/
def exModel : WorkspaceDataSourceModel :=
  { ID := TFString.value "11111111-1111-1111-1111-111111111111",
    Created := TFString.null, Updated := TFString.null, AccountID := TFString.null,
    Name := TFString.null, Handle := TFString.null, Description := TFString.null }

/-- A model with both lookup keys set, the `id` being the empty string (the
specification's second example scenario). -/
def conflictModel : WorkspaceDataSourceModel :=
  { ID := TFString.value "", Name := TFString.value "prod", AccountID := TFString.null,
    Created := TFString.null, Updated := TFString.null, Handle := TFString.null,
    Description := TFString.null }

/-- A sub-client whose `Get` always fails with a not-found error. -/
def errWC : WorkspacesClient := ⟨fun _ => Except.error "workspace not found"⟩

/-- A facade whose `Workspaces` succeeds with the failing sub-client. -/
def errClient : PrefectClient := ⟨fun _ => Except.ok errWC⟩

/-- A model with a malformed `account_id` and only the `id` lookup key set. -/
def badAcctModel : WorkspaceDataSourceModel :=
  { exModel with AccountID := TFString.value "not-a-uuid" }

/-- A model with a malformed `account_id` and both lookup keys set. -/
def conflictBadAcctModel : WorkspaceDataSourceModel :=
  { badAcctModel with Name := TFString.value "prod" }

/-- The example workspace with a present-but-empty description. -/
def emptyDescWorkspace : Workspace := { exWorkspace with Description := some "" }

/-- A sub-client whose `Get` returns the empty-description workspace. -/
def emptyDescWC : WorkspacesClient := ⟨fun _ => Except.ok emptyDescWorkspace⟩

/-- A facade serving the empty-description workspace. -/
def emptyDescClient : PrefectClient := ⟨fun _ => Except.ok emptyDescWC⟩

/-- The UUID `aaaaaaaa-bbbb-cccc-dddd-eeeeeeeeeeee`. -/
def uABCD : UUID :=
  ⟨[170, 170, 170, 170, 187, 187, 204, 204, 221, 221, 238, 238, 238, 238, 238, 238]⟩

/-- A model whose `id` is given in uppercase hex: parseable but not canonical. -/
def upperModel : WorkspaceDataSourceModel :=
  { exModel with ID := TFString.value "AAAAAAAA-BBBB-CCCC-DDDD-EEEEEEEEEEEE" }

/-- The example workspace carrying the `uABCD` identifier. -/
def upperWorkspace : Workspace := { exWorkspace with ID := uABCD }

/-- A sub-client whose `Get` returns `upperWorkspace`. -/
def upperWC : WorkspacesClient := ⟨fun _ => Except.ok upperWorkspace⟩

/-- A facade serving `upperWorkspace`. -/
def upperClient : PrefectClient := ⟨fun _ => Except.ok upperWC⟩

/-! ### Helper lemmas -/

/-- Characters allowed in a canonical UUID rendering: lowercase hex or `-`. -/
def lowerHexOrDash (c : Char) : Bool := "0123456789abcdef-".data.contains c

theorem hexDigit_lowerHex (n : Nat) : lowerHexOrDash (hexDigit n) = true := by
  unfold hexDigit
  split <;> decide

theorem bytesToHexChars_lowerHex (l : List Nat) :
    (bytesToHexChars l).all lowerHexOrDash = true := by
  induction l with
  | nil => rfl
  | cons b bs ih => simp [bytesToHexChars, List.all_cons, ih, hexDigit_lowerHex]

theorem UUID_String_lowerHex (u : UUID) :
    (UUID.String u).data.all lowerHexOrDash = true := by
  show (UUID.chars u).all lowerHexOrDash = true
  unfold UUID.chars
  simp [List.all_append, List.all_cons, bytesToHexChars_lowerHex]
  decide

namespace WorkspaceDataSource

/-- The success path of `Read`: when the lookup keys do not conflict, the
account scope resolves, the sub-client constructs, the workspace ID parses and
`Get` succeeds, `Read` issues exactly one `Workspaces` and one `Get` call,
records no diagnostic, and writes the mapped model. -/
theorem Read_success (model : WorkspaceDataSourceModel) (client : PrefectClient)
    (aid wid : UUID) (wc : WorkspacesClient) (w : Workspace)
    (hName : model.Name.IsNull = true)
    (hA : resolveAccountID model = Except.ok aid)
    (hW : client.Workspaces aid = Except.ok wc)
    (hID : uuid.Parse model.ID.ValueString = Except.ok wid)
    (hG : wc.Get wid = Except.ok w) :
    Read model client =
      { diagnostics := [], workspacesCalls := [aid], getCalls := [wid],
        newState := some (updateModelFromWorkspace model w) } := by
  unfold Read
  rw [if_neg (by simp [hName])]
  simp only [hA, hW, hID, hG]

end WorkspaceDataSource

/-! ### Claim theorems -/

namespace WorkspaceDataSource

/-- C1: whenever both the `id` and the `name` attribute are set (non-null) —
including when `id` holds the empty string — `Read` records exactly the
"Conflicting workspace lookup keys" error diagnostic and returns with no
`Workspaces` call, no `Get` call, and no state write. -/
theorem read_conflicting_lookup_keys
    (model : WorkspaceDataSourceModel) (client : PrefectClient)
    (hID : model.ID.IsNull = false) (hName : model.Name.IsNull = false) :
    Read model client =
      { diagnostics := [Diagnostic.error "Conflicting workspace lookup keys"
          "Workspaces can be identified by their unique name or ID, but not both."],
        workspacesCalls := [], getCalls := [], newState := none } := by
  unfold Read
  rw [if_pos ⟨hID, hName⟩]

/-- C1 witness: the specification's example, `id = ""` and `name = "prod"`. -/
theorem read_conflicting_lookup_keys_witness :
    conflictModel.ID = TFString.value "" ∧
    conflictModel.ID.IsNull = false ∧ conflictModel.Name.IsNull = false ∧
    Read conflictModel exClient =
      { diagnostics := [Diagnostic.error "Conflicting workspace lookup keys"
          "Workspaces can be identified by their unique name or ID, but not both."],
        workspacesCalls := [], getCalls := [], newState := none } :=
  ⟨rfl, rfl, rfl, read_conflicting_lookup_keys conflictModel exClient rfl rfl⟩

/-- C2: on a successful `Read`, each nullable remote field maps
presence-preservingly: a nil `Created`/`Updated` timestamp or nil
`Description` pointer becomes the explicit null value, a non-nil timestamp
becomes its RFC 3339 rendering, and a non-nil description its string value —
never an empty-string stand-in for an absent field (`TFString.null` is
distinct from `TFString.value ""`). -/
theorem read_nullable_field_mapping
    (model : WorkspaceDataSourceModel) (client : PrefectClient)
    (aid wid : UUID) (wc : WorkspacesClient) (w : Workspace)
    (hName : model.Name.IsNull = true)
    (hA : resolveAccountID model = Except.ok aid)
    (hW : client.Workspaces aid = Except.ok wc)
    (hID : uuid.Parse model.ID.ValueString = Except.ok wid)
    (hG : wc.Get wid = Except.ok w) :
    ((Read model client).newState.map fun m => (m.Created, m.Updated, m.Description)) =
      some ((match w.Created with
              | none => TFString.null
              | some t => TFString.value t.formatRFC3339),
            (match w.Updated with
              | none => TFString.null
              | some t => TFString.value t.formatRFC3339),
            StringPointerValue w.Description) ∧
    TFString.null ≠ TFString.value "" := by
  refine ⟨?_, by decide⟩
  rw [Read_success model client aid wid wc w hName hA hW hID hG]
  rfl

/-- C2 witness: the specification's example entity, with `description` and
`updated` absent and `created = 2023-01-01T00:00:00Z`. -/
theorem read_nullable_field_mapping_witness :
    exModel.Name.IsNull = true ∧
    resolveAccountID exModel = Except.ok UUID.Nil ∧
    exClient.Workspaces UUID.Nil = Except.ok exWC ∧
    uuid.Parse exModel.ID.ValueString = Except.ok u1111 ∧
    exWC.Get u1111 = Except.ok exWorkspace ∧
    ((Read exModel exClient).newState.map fun m => (m.Created, m.Updated, m.Description)) =
      some (TFString.value "2023-01-01T00:00:00Z", TFString.null, TFString.null) := by
  refine ⟨rfl, by decide, rfl, by decide, rfl, ?_⟩
  rw [(read_nullable_field_mapping exModel exClient UUID.Nil u1111 exWC exWorkspace
        rfl (by decide) rfl (by decide) rfl).1]
  decide

/-- C3: when the remote `Get` fails, `Read` records exactly one diagnostic —
an error wrapping the underlying error text — after exactly one `Get` call,
and writes nothing to the response state. -/
theorem read_get_error
    (model : WorkspaceDataSourceModel) (client : PrefectClient)
    (aid wid : UUID) (wc : WorkspacesClient) (e : String)
    (hName : model.Name.IsNull = true)
    (hA : resolveAccountID model = Except.ok aid)
    (hW : client.Workspaces aid = Except.ok wc)
    (hID : uuid.Parse model.ID.ValueString = Except.ok wid)
    (hG : wc.Get wid = Except.error e) :
    Read model client =
      { diagnostics := [Diagnostic.error "Error refreshing workspace state"
          ("Could not read workspace, unexpected error: " ++ e)],
        workspacesCalls := [aid], getCalls := [wid], newState := none } := by
  unfold Read
  rw [if_neg (by simp [hName])]
  simp only [hA, hW, hID, hG]

/-- C3 witness: a not-found `Get` failure on the example lookup. -/
theorem read_get_error_witness :
    errWC.Get u1111 = Except.error "workspace not found" ∧
    Read exModel errClient =
      { diagnostics := [Diagnostic.error "Error refreshing workspace state"
          "Could not read workspace, unexpected error: workspace not found"],
        workspacesCalls := [UUID.Nil], getCalls := [u1111], newState := none } :=
  ⟨rfl, read_get_error exModel errClient UUID.Nil u1111 errWC "workspace not found"
    rfl (by decide) rfl (by decide) rfl⟩

end WorkspaceDataSource

namespace WorkspaceDataSource

/-- C4 counterexample: a `Read` whose `account_id` is non-null, non-empty and
unparseable, but whose configuration also sets both lookup keys, records the
generic conflicting-lookup-keys diagnostic and no attribute-level diagnostic
on the `account_id` path, refuting the claim as universally stated. -/
theorem read_malformed_account_id_counterexample :
    conflictBadAcctModel.AccountID.IsNull = false ∧
    conflictBadAcctModel.AccountID.ValueString ≠ "" ∧
    uuid.Parse conflictBadAcctModel.AccountID.ValueString =
      Except.error "invalid UUID length: 10" ∧
    ((Read conflictBadAcctModel exClient).diagnostics.any
      fun d => d.isAttributeErrorAt "account_id") = false ∧
    (Read conflictBadAcctModel exClient).diagnostics =
      [Diagnostic.error "Conflicting workspace lookup keys"
        "Workspaces can be identified by their unique name or ID, but not both."] := by
  decide

/-- C4 (amended): for every `Read` that does not have both lookup keys set and
whose `account_id` attribute is non-null, non-empty, and not parseable as a
UUID, `Read` records exactly an attribute-level diagnostic rooted at the
`account_id` path and returns before any sub-client construction or remote
call. -/
theorem read_malformed_account_id
    (model : WorkspaceDataSourceModel) (client : PrefectClient) (e : String)
    (hKeys : ¬(model.ID.IsNull = false ∧ model.Name.IsNull = false))
    (hNull : model.AccountID.IsNull = false)
    (hEmpty : model.AccountID.ValueString ≠ "")
    (hParse : uuid.Parse model.AccountID.ValueString = Except.error e) :
    Read model client =
      { diagnostics := [Diagnostic.attributeError "account_id" "Error parsing Account ID"
          ("Could not parse account ID to UUID, unexpected error: " ++ e)],
        workspacesCalls := [], getCalls := [], newState := none } := by
  have hres : resolveAccountID model = Except.error e := by
    unfold resolveAccountID
    rw [if_pos ⟨hNull, hEmpty⟩, hParse]
  unfold Read
  rw [if_neg hKeys]
  simp only [hres]

/-- C4 witness: `account_id = "not-a-uuid"` with only the `id` key set. -/
theorem read_malformed_account_id_witness :
    badAcctModel.Name.IsNull = true ∧
    badAcctModel.AccountID.IsNull = false ∧
    badAcctModel.AccountID.ValueString ≠ "" ∧
    uuid.Parse badAcctModel.AccountID.ValueString =
      Except.error "invalid UUID length: 10" ∧
    Read badAcctModel exClient =
      { diagnostics := [Diagnostic.attributeError "account_id" "Error parsing Account ID"
          "Could not parse account ID to UUID, unexpected error: invalid UUID length: 10"],
        workspacesCalls := [], getCalls := [], newState := none } :=
  ⟨rfl, rfl, by decide, by decide,
    read_malformed_account_id badAcctModel exClient "invalid UUID length: 10"
      (by decide) rfl (by decide) (by decide)⟩

/-- C5: for every `Read` whose `account_id` attribute is null or empty, the
account scope resolves to the provider default: every `Workspaces` call issued
passes `uuid.Nil`. -/
theorem read_default_account
    (model : WorkspaceDataSourceModel) (client : PrefectClient)
    (h : model.AccountID.IsNull = true ∨ model.AccountID.ValueString = "") :
    ((Read model client).workspacesCalls.all fun a => a == UUID.Nil) = true := by
  have hcond : ¬(model.AccountID.IsNull = false ∧ model.AccountID.ValueString ≠ "") := by
    rcases h with h | h
    · simp [h]
    · simp [h]
  have hres : resolveAccountID model = Except.ok UUID.Nil := by
    unfold resolveAccountID
    rw [if_neg hcond]
  unfold Read
  by_cases hc : model.ID.IsNull = false ∧ model.Name.IsNull = false
  · rw [if_pos hc]
    rfl
  · rw [if_neg hc]
    simp only [hres]
    cases hW : client.Workspaces UUID.Nil with
    | error e => rfl
    | ok wc =>
      cases hP : uuid.Parse model.ID.ValueString with
      | error e => rfl
      | ok wid =>
        cases hG : wc.Get wid with
        | error e => simp [hG]
        | ok w => simp [hG]

/-- C5 witness: a null `account_id` on the example lookup issues its single
`Workspaces` call with `uuid.Nil`. -/
theorem read_default_account_witness :
    exModel.AccountID.IsNull = true ∧
    ((Read exModel exClient).workspacesCalls.all fun a => a == UUID.Nil) = true :=
  ⟨rfl, read_default_account exModel exClient (Or.inl rfl)⟩

/-- C6: a successful `Read` reproduces the remote entity field by field: `id`
is the entity UUID's string rendering, `name`, `handle` and `description`
are the entity's values, `created`/`updated` its timestamps in RFC 3339 form,
and the `account_id` attribute is left as configured. -/
theorem read_roundtrip
    (model : WorkspaceDataSourceModel) (client : PrefectClient)
    (aid wid : UUID) (wc : WorkspacesClient) (w : Workspace)
    (hName : model.Name.IsNull = true)
    (hA : resolveAccountID model = Except.ok aid)
    (hW : client.Workspaces aid = Except.ok wc)
    (hID : uuid.Parse model.ID.ValueString = Except.ok wid)
    (hG : wc.Get wid = Except.ok w) :
    Read model client =
      { diagnostics := [], workspacesCalls := [aid], getCalls := [wid],
        newState := some
          { ID := StringValue w.ID.String,
            Created := match w.Created with
              | none => StringNull
              | some t => StringValue t.formatRFC3339,
            Updated := match w.Updated with
              | none => StringNull
              | some t => StringValue t.formatRFC3339,
            AccountID := model.AccountID,
            Name := StringValue w.Name,
            Handle := StringValue w.Handle,
            Description := StringPointerValue w.Description } } := by
  rw [Read_success model client aid wid wc w hName hA hW hID hG]
  rfl

/-- C6 witness: the example entity is reproduced exactly in the state. -/
theorem read_roundtrip_witness :
    exModel.Name.IsNull = true ∧
    resolveAccountID exModel = Except.ok UUID.Nil ∧
    exClient.Workspaces UUID.Nil = Except.ok exWC ∧
    uuid.Parse exModel.ID.ValueString = Except.ok u1111 ∧
    exWC.Get u1111 = Except.ok exWorkspace ∧
    Read exModel exClient =
      { diagnostics := [], workspacesCalls := [UUID.Nil], getCalls := [u1111],
        newState := some
          { ID := TFString.value "11111111-1111-1111-1111-111111111111",
            Created := TFString.value "2023-01-01T00:00:00Z",
            Updated := TFString.null,
            AccountID := TFString.null,
            Name := TFString.value "prod",
            Handle := TFString.value "prod-handle",
            Description := TFString.null } } := by
  refine ⟨rfl, by decide, rfl, by decide, rfl, ?_⟩
  rw [read_roundtrip exModel exClient UUID.Nil u1111 exWC exWorkspace
        rfl (by decide) rfl (by decide) rfl]
  decide

end WorkspaceDataSource

namespace WorkspaceDataSource

/-- C7: `Configure` with non-nil provider data that is not of the
`api.PrefectClient` facade type records exactly one error diagnostic asking
the user to report the issue to the provider developers, and returns (it is a
total function, so it cannot panic) without modifying the stored client. -/
theorem configure_unexpected_type (stored : Option PrefectClient) (t : String) :
    Configure stored (ProviderData.other t) =
      ([Diagnostic.error "Unexpected Data Source Configure Type"
          ("Expected api.PrefectClient, got: " ++ t ++
           ". Please report this issue to the provider developers.")], stored) := rfl

/-- C8: a successful `Read` of an entity whose description is a non-nil
pointer to the empty string yields a present (non-null) empty-string model
value, distinct from the null produced by a nil pointer. -/
theorem read_empty_description_present
    (model : WorkspaceDataSourceModel) (client : PrefectClient)
    (aid wid : UUID) (wc : WorkspacesClient) (w : Workspace)
    (hName : model.Name.IsNull = true)
    (hA : resolveAccountID model = Except.ok aid)
    (hW : client.Workspaces aid = Except.ok wc)
    (hID : uuid.Parse model.ID.ValueString = Except.ok wid)
    (hG : wc.Get wid = Except.ok w)
    (hD : w.Description = some "") :
    ((Read model client).newState.map fun m => m.Description) =
      some (TFString.value "") ∧
    (TFString.value "").IsNull = false ∧
    StringPointerValue none = TFString.null ∧
    TFString.value "" ≠ TFString.null := by
  refine ⟨?_, rfl, rfl, by decide⟩
  rw [Read_success model client aid wid wc w hName hA hW hID hG]
  simp [updateModelFromWorkspace, hD, StringPointerValue]

/-- C8 witness: the example entity with `description` pointing at `""`. -/
theorem read_empty_description_present_witness :
    emptyDescWorkspace.Description = some "" ∧
    emptyDescWC.Get u1111 = Except.ok emptyDescWorkspace ∧
    ((Read exModel emptyDescClient).newState.map fun m => m.Description) =
      some (TFString.value "") :=
  ⟨rfl, rfl,
    (read_empty_description_present exModel emptyDescClient UUID.Nil u1111
      emptyDescWC emptyDescWorkspace rfl (by decide) rfl (by decide) rfl rfl).1⟩

/-- C9: a successful `Read` overwrites the model's `id` with the canonical
rendering of the UUID returned by `Get` — a string of lowercase hex digits
and hyphens — rather than echoing the configured form back. -/
theorem read_id_normalized
    (model : WorkspaceDataSourceModel) (client : PrefectClient)
    (aid wid : UUID) (wc : WorkspacesClient) (w : Workspace)
    (hName : model.Name.IsNull = true)
    (hA : resolveAccountID model = Except.ok aid)
    (hW : client.Workspaces aid = Except.ok wc)
    (hID : uuid.Parse model.ID.ValueString = Except.ok wid)
    (hG : wc.Get wid = Except.ok w) :
    ((Read model client).newState.map fun m => m.ID) =
      some (TFString.value w.ID.String) ∧
    (w.ID.String).data.all lowerHexOrDash = true := by
  constructor
  · rw [Read_success model client aid wid wc w hName hA hW hID hG]
    rfl
  · exact UUID_String_lowerHex w.ID

/-- C9 witness: an uppercase configured `id` parses, and the persisted `id`
is the lowercase canonical rendering, not the configured string. -/
theorem read_id_normalized_witness :
    uuid.Parse upperModel.ID.ValueString = Except.ok uABCD ∧
    ((Read upperModel upperClient).newState.map fun m => m.ID) =
      some (TFString.value "aaaaaaaa-bbbb-cccc-dddd-eeeeeeeeeeee") ∧
    TFString.value "aaaaaaaa-bbbb-cccc-dddd-eeeeeeeeeeee" ≠ upperModel.ID := by
  refine ⟨by decide, ?_, by decide⟩
  rw [(read_id_normalized upperModel upperClient UUID.Nil uABCD upperWC upperWorkspace
        rfl (by decide) rfl (by decide) rfl).1]
  decide

/-- C10: `Configure` with nil provider data is a silent no-op: no diagnostic
of any severity is recorded and the stored client is unchanged. -/
theorem configure_nil_noop (stored : Option PrefectClient) :
    Configure stored ProviderData.nil = ([], stored) := rfl

end WorkspaceDataSource
